import Mathlib

/-
Verification of the eqitii-dht Server layer (kademlia/network.py) and the
value-model contracts it relies on.  The Server methods are embedded as pure
functions over an explicit environment `Env` that packages the external
collaborators (hash functions, the authorization oracle, the routing table,
the crawl engine and the per-peer store RPC) and an explicit storage state.
Python exceptions become `Except UnauthorizedOperationException`, threaded
together with the storage so that error paths visibly leave the store as it
was at the point of the raise.
-/

/-- Modelled from the spec: the authorization part of a `Value` (module
kademlia/domain/domain.py is not under src/) — the writer's signature and
public key, treated as opaque strings. -/
structure Authorization where
  sign : String
  pubKey : String
  deriving DecidableEq

/-- Modelled from the spec: a single signed datum (kademlia/domain/domain.py
is not under src/): raw content, a persist-mode tag, and the authorization
(signature plus signer's public key). -/
structure Value where
  dkey : String
  data : String
  persistMode : String
  authorization : Authorization
  deriving DecidableEq

/-- Modelled from the spec: the serialized (JSON string) form of a stored
value, dispatched on shape — a single object or a list of objects.  This is
what `str(result)` produces and `json.loads` recovers. -/
inductive Ser where
  | singleVal (v : Value)
  | listVal (vs : List Value)
  deriving DecidableEq

/-- Modelled from the spec: the parsed stored representation, a closed
variant of a single-writer `Value` or a multi-writer `ControlledValue`
(an ordered collection of values sharing one key). -/
inductive StoredValue where
  | single (v : Value)
  | controlled (vs : List Value)
  deriving DecidableEq

/-- Modelled from the spec: serialization of a parsed value back to its
stored string form (a `ControlledValue` serializes as a JSON list). -/
def StoredValue.serialize : StoredValue → Ser
  | .single v => .singleVal v
  | .controlled vs => .listVal vs

/-- Modelled from the spec: `ControlledValue.add_value` appends a new valid
value without discarding prior ones. -/
def ControlledValue.add_value (vs : List Value) (new_value : Value) : List Value :=
  vs ++ [new_value]

/-- Modelled from the spec: `ValueFactory.create_from_string(key, raw)`
deserializes the stored representation, dispatching on the shape of the
serialized form (single object versus list). -/
def ValueFactory.create_from_string (_dkey : String) : Ser → StoredValue
  | .singleVal v => .single v
  | .listVal vs => .controlled vs

/-- Modelled from the spec: `ValueFactory.create_from_value` wraps the first
writer's value for a key. -/
def ValueFactory.create_from_value (v : Value) : StoredValue :=
  .single v

/-- Modelled from the spec: the lookup envelope `(key digest, payload-or-None)`
returned by value lookups (kademlia/domain/domain.py is not under src/). -/
structure NodeMessage where
  dkey : String
  data : Option Ser
  deriving DecidableEq

/-- Modelled from the spec: `NodeMessage.of_params` builds the envelope from a
key digest and an optional payload. -/
def NodeMessage.of_params (dkey : String) (data : Option Ser) : NodeMessage :=
  ⟨dkey, data⟩

/-- The exception raised on refused writes (kademlia/exceptions.py). -/
inductive UnauthorizedOperationException where
  | mk
  deriving DecidableEq

/-- One local store entry: key digest, serialized value, last-write time.
Modelled from the spec: ForgetfulStorage (kademlia/storage.py is not under
src/) keeps a last-write timestamp per entry; expiry is not exercised by any
claim and is not modelled. -/
structure TEntry where
  key : String
  value : Ser
  time : Nat
  deriving DecidableEq

/-- The local expiring key→value store, as the list of its live entries. -/
structure Storage where
  entries : List TEntry
  deriving DecidableEq

/-- Modelled from the spec: `storage.get(key, default)` — the stored value for
a key digest, if present. -/
def Storage.get (st : Storage) (k : String) : Option Ser :=
  (st.entries.find? (fun e => e.key == k)).map TEntry.value

/-- Modelled from the spec: `storage[dkey] = value` overwrites the entry for
the key and stamps the current time. -/
def Storage.setItem (st : Storage) (k : String) (v : Ser) (now : Nat) : Storage :=
  ⟨⟨k, v, now⟩ :: st.entries.filter (fun e => e.key != k)⟩

/-- Modelled from the spec: `iteritemsOlderThan(age)` yields the (key, value)
pairs of entries whose timestamp satisfies now - t >= age. -/
def Storage.iteritemsOlderThan (st : Storage) (now age : Nat) : List (String × Ser) :=
  (st.entries.filter (fun e => decide (e.time + age ≤ now))).map (fun e => (e.key, e.value))

/-- The external collaborators of the Server, packaged as one environment:
the black-box hash functions (kademlia/utils.py is not under src/), the
black-box signature check `Value.is_valid`, the external authorization oracle
(`validatorRepository.get_by_id`, presence as `true`), the black-box
single-writer policy check `validate_secure_value`, the routing table's
`findNeighbors`, the crawl engine's node lookup and value responses
(kademlia/crawling.py is not under src/), and the per-peer `callStore` RPC.
The oracle takes the index of the query within one local persist (0 = before
the merge, 1 = after), so that authorization may be revoked mid-write. -/
structure Env where
  digest : String → String
  digest256 : String → String
  hexStr : String → String
  isValid : Value → Bool
  oracle : Nat → String → Bool
  validateSecure : String → Value → Value → Bool
  findNeighbors : String → List String
  crawlNodes : String → List String
  spiderResponses : String → List NodeMessage
  callStore : String → String → Ser → Bool

/-- `Server._get_dtl_record`: query the authorization oracle by
`digest256(dkey.hex() + value.authorization.sign).hex()`; `i` is the index of
the query within the current local persist. -/
def get_dtl_record (env : Env) (i : Nat) (dkey : String) (new_value : Value) : Bool :=
  let val_sign := new_value.authorization.sign
  let value_hash := env.hexStr (env.digest256 (env.hexStr dkey ++ val_sign))
  env.oracle i value_hash

/-- Modelled from the spec: `select_most_common_response` scans the
data-bearing payloads keeping the payload whose occurrence count in the whole
collection is highest, a later payload displacing the current best only when
its count is strictly greater — so ties go to the first-seen payload
(kademlia/domain/domain.py is not under src/).  `countOcc p l` is the
occurrence count of payload `p` in `l`. -/
def countOcc (p : Ser) : List Ser → Nat
  | [] => 0
  | q :: rest => (if q = p then 1 else 0) + countOcc p rest

/-- Modelled from the spec: the best payload of a sublist, counting
occurrences in the full collection `full`; the head wins all ties against
later elements. -/
def pickBest (full : List Ser) : List Ser → Option Ser
  | [] => none
  | p :: rest =>
    match pickBest full rest with
    | none => some p
    | some b => if countOcc p full < countOcc b full then some b else some p

/-- Modelled from the spec: group the data-bearing responses by payload
equality and return the payload with the highest occurrence count, first-seen
winning ties; absent when no response carries data. -/
def select_most_common_response (_dkey : String) (responses : List NodeMessage) : Option Ser :=
  let payloads := responses.filterMap NodeMessage.data
  pickBest payloads payloads

/-- `Server.get` (network.py lines 150–179): digest the key; with no known
neighbors answer an empty `NodeMessage`; otherwise gather the value crawl's
responses — seeding them with the local copy, placed first, when the store
holds one (modelled from the spec: `ValueSpiderCrawl.find(preseed)` returns
the preseed followed by the network responses, kademlia/crawling.py is not
under src/) — and resolve by majority. -/
def Server.get (env : Env) (st : Storage) (key : String) : NodeMessage :=
  let dkey := env.digest key
  let nearest := env.findNeighbors dkey
  if nearest.length = 0 then
    NodeMessage.of_params dkey none
  else
    let local_value := st.get dkey
    let responses :=
      match local_value with
      | some v => NodeMessage.of_params dkey (some v) :: env.spiderResponses dkey
      | none => env.spiderResponses dkey
    NodeMessage.of_params dkey (select_most_common_response dkey responses)

/-- `Server._persist_locally` (network.py lines 194–221): fetch the current
network value, check the oracle, merge per the value-model conflict rule,
check the oracle again, then (and only then) write the serialized result to
the local store.  The returned storage is the storage at the point the call
finishes — unchanged on every raising path, since the write is the final
statement. -/
def persist_locally (env : Env) (key : String) (new_value : Value) (st : Storage)
    (now : Nat) : Except UnauthorizedOperationException Unit × Storage :=
  let dkey := env.digest key
  let value_response := Server.get env st key
  if get_dtl_record env 0 dkey new_value = false then
    (Except.error UnauthorizedOperationException.mk, st)
  else
    let resultE : Except UnauthorizedOperationException StoredValue :=
      match value_response.data with
      | some data =>
        match ValueFactory.create_from_string dkey data with
        | StoredValue.controlled vs =>
          Except.ok (StoredValue.controlled (ControlledValue.add_value vs new_value))
        | StoredValue.single stored_value =>
          if env.validateSecure dkey new_value stored_value then
            Except.ok (StoredValue.single new_value)
          else
            Except.error UnauthorizedOperationException.mk
      | none => Except.ok (ValueFactory.create_from_value new_value)
    match resultE with
    | Except.error e => (Except.error e, st)
    | Except.ok result =>
      if get_dtl_record env 1 dkey new_value = false then
        (Except.error UnauthorizedOperationException.mk, st)
      else
        (Except.ok (), st.setItem dkey result.serialize now)

/-- `Server._call_remote_persist` (network.py lines 229–250): digest the key;
with no known neighbors return `false`; otherwise crawl for the nearest nodes
and return `true` exactly when at least one `callStore` succeeded. -/
def call_remote_persist (env : Env) (key : String) (value : Ser) : Bool :=
  let dkey := env.digest key
  let nearest := env.findNeighbors dkey
  if nearest.length = 0 then
    false
  else
    let nodes := env.crawlNodes dkey
    (nodes.map (fun n => env.callStore n dkey value)).any (fun b => b)

/-- The list of per-peer store outcomes actually issued by
`_call_remote_persist`: empty when there are no known neighbors (no RPC is
sent), otherwise one `callStore` outcome per crawled node. -/
def issuedStoreCalls (env : Env) (key : String) (value : Ser) : List Bool :=
  let dkey := env.digest key
  if (env.findNeighbors dkey).length = 0 then
    []
  else
    (env.crawlNodes dkey).map (fun n => env.callStore n dkey value)

/-- `Server.set` (network.py lines 181–192): reject an invalid value, persist
locally (which may raise), then propagate the raw value to the nearest peers
and report whether at least one accepted. -/
def Server.set (env : Env) (key : String) (new_value : Value) (st : Storage)
    (now : Nat) : Except UnauthorizedOperationException Bool × Storage :=
  if env.isValid new_value then
    match persist_locally env key new_value st now with
    | (Except.error e, st1) => (Except.error e, st1)
    | (Except.ok _, st1) =>
      (Except.ok (call_remote_persist env key (Ser.singleVal new_value)), st1)
  else
    (Except.error UnauthorizedOperationException.mk, st)

/-- The republish half of `Server._refresh_table` (network.py lines 104–114):
for every stored entry older than one hour, parse the stored string; a JSON
list is expanded into one remote-persist call per element, each element
re-serialized individually; anything else yields exactly one call with the
stored value unchanged.  The result is the list of (key, value) arguments of
the `_call_remote_persist` calls made, in order.  `republishExpand` is the
per-entry step of the loop body (network.py lines 106–114). -/
def republishExpand (kv : String × Ser) : List (String × Ser) :=
  match kv.2 with
  | Ser.listVal vs => vs.map (fun v => (kv.1, Ser.singleVal v))
  | v => [(kv.1, v)]

/-- The republish sweep itself: one block of remote-persist calls per entry
older than one hour, in store order. -/
def refresh_table_republish (st : Storage) (now : Nat) : List (String × Ser) :=
  (st.iteritemsOlderThan now 3600).flatMap republishExpand

/-- The number of republish calls a stored serialized value gives rise to. -/
def serCallCount : Ser → Nat
  | .listVal vs => vs.length
  | _ => 1

/-- Modelled from the spec: a routing-table peer as seen by
`bootstrappableNeighbors` — identity plus (ip, port) address
(kademlia/node.py and kademlia/routing.py are not under src/). -/
structure NodeInfo where
  id : String
  ip : String
  port : Nat
  deriving DecidableEq

/-- The Server fields the snapshot claims observe: the construction
parameters, the router's current neighbors (modelled from the spec: the
routing table is not under src/), and the addresses toward which a bootstrap
has actually been executed (awaited), if any. -/
structure ServerModel where
  ksize : Nat
  alpha : Nat
  nodeId : String
  routerNeighbors : List NodeInfo
  storage : Storage
  bootstrapAddrs : Option (List (String × Nat))
  deriving DecidableEq

/-- `Server.bootstrappableNeighbors` (network.py lines 116–127): the (ip,
port) pairs of the router's neighbors of the local node. -/
def bootstrappableNeighbors (s : ServerModel) : List (String × Nat) :=
  s.routerNeighbors.map (fun n => (n.ip, n.port))

/-- The snapshot written by `saveState`: ksize, alpha, local node id, and the
neighbor address list. -/
structure Snapshot where
  ksize : Nat
  alpha : Nat
  id : String
  neighbors : List (String × Nat)
  deriving DecidableEq

/-- `Server.saveState` (network.py lines 252–268): collect (ksize, alpha, id,
neighbors); when the neighbor list is empty nothing is written (`none`),
otherwise the snapshot is the written blob. -/
def saveState (s : ServerModel) : Option Snapshot :=
  let data : Snapshot := ⟨s.ksize, s.alpha, s.nodeId, bootstrappableNeighbors s⟩
  if data.neighbors.length = 0 then
    none
  else
    some data

/-- `Server.__init__` (network.py lines 34–52) with an explicit node id: fresh
empty storage, no peers known yet, no bootstrap issued. -/
def ServerModel.mkNew (ksize alpha : Nat) (nodeId : String) : ServerModel :=
  ⟨ksize, alpha, nodeId, [], ⟨[]⟩, none⟩

/-- `Server.loadState` (network.py lines 270–282): rebuild a Server from the
saved ksize, alpha and id.  When the saved neighbor list is nonempty, line 281
calls `s.bootstrap(data['neighbors'])` — an async def — from this synchronous
classmethod without awaiting or scheduling it, so the coroutine is created and
discarded and its body never runs: the returned server has executed no
bootstrap, in either branch. -/
def loadState (snap : Snapshot) : ServerModel :=
  let s := ServerModel.mkNew snap.ksize snap.alpha snap.id
  if snap.neighbors.length > 0 then
    s
  else
    s

/-- A concrete environment for evaluating the embedded operations: identity
hash functions, a fixed validity verdict, a fixed oracle, one neighbor list
used both by the router and the crawl, a per-node store outcome and a fixed
single-writer policy verdict. -/
def demoEnv (valid : Bool) (orc : Nat → String → Bool) (neighbors : List String)
    (store : String → Bool) (vsec : Bool) : Env :=
  { digest := fun k => k
    digest256 := fun s => s
    hexStr := fun s => s
    isValid := fun _ => valid
    oracle := orc
    validateSecure := fun _ _ _ => vsec
    findNeighbors := fun _ => neighbors
    crawlNodes := fun _ => neighbors
    spiderResponses := fun _ => []
    callStore := fun n _ _ => store n }

/-- A concrete signed value for key "k". -/
def demoValue : Value :=
  ⟨"k", "alice", "overwrite", ⟨"sigA", "pkA"⟩⟩

/-- A second concrete signed value for key "k", by another writer. -/
def demoValue2 : Value :=
  ⟨"k", "bob", "overwrite", ⟨"sigB", "pkB"⟩⟩

/-- The empty local store. -/
def emptyStorage : Storage :=
  ⟨[]⟩

/-- A fully permissive environment with one known neighbor that accepts
stores. -/
def demoEnvOK : Env :=
  demoEnv true (fun _ _ => true) ["n1"] (fun _ => true) true

/-- A store holding a controlled (multi-writer) value for key "k". -/
def demoStorageCtrl : Storage :=
  ⟨[⟨"k", Ser.listVal [demoValue], 5⟩]⟩

/-- An environment in which the value's own signature check fails. -/
def demoEnvInvalid : Env :=
  demoEnv false (fun _ _ => true) ["n1"] (fun _ => true) true

/-- An environment in which the authorization oracle answers absent for every
query. -/
def demoEnvNoAuth : Env :=
  demoEnv true (fun _ _ => false) ["n1"] (fun _ => true) true

/-- An environment with no known neighbors at all. -/
def demoEnvNoPeers : Env :=
  demoEnv true (fun _ _ => true) [] (fun _ => true) true

/-- A concrete server with one known neighbor, for the snapshot round trip. -/
def demoServer : ServerModel :=
  ⟨20, 3, "id0", [⟨"nid", "10.0.0.1", 8468⟩], ⟨[]⟩, none⟩

/-- A store with one hour-old multi-writer entry and one fresh entry. -/
def demoTimedStorage : Storage :=
  ⟨[⟨"k", Ser.listVal [demoValue, demoValue2], 0⟩, ⟨"j", Ser.singleVal demoValue, 4000⟩]⟩

/-- With an empty stored entry list every oracle-passing persist writes the
first writer's value; helper: check 0 failing makes the whole persist refuse
with the store untouched. -/
theorem persist_locally_check0_refuses (env : Env) (key : String) (nv : Value)
    (st : Storage) (now : Nat)
    (h0 : get_dtl_record env 0 (env.digest key) nv = false) :
    persist_locally env key nv st now =
      (Except.error UnauthorizedOperationException.mk, st) := by
  simp [persist_locally, h0]

/-- Helper: check 1 failing makes the whole persist refuse with the store
untouched (whatever the merge step did). -/
theorem persist_locally_check1_refuses (env : Env) (key : String) (nv : Value)
    (st : Storage) (now : Nat)
    (h1 : get_dtl_record env 1 (env.digest key) nv = false) :
    persist_locally env key nv st now =
      (Except.error UnauthorizedOperationException.mk, st) := by
  by_cases h0 : get_dtl_record env 0 (env.digest key) nv = false
  · exact persist_locally_check0_refuses env key nv st now h0
  · simp only [persist_locally, h0, if_false]
    rcases hd : (Server.get env st key).data with _ | d
    · simp [hd, h1]
    · cases d with
      | singleVal v =>
        by_cases hval : env.validateSecure (env.digest key) nv v
        · simp [hd, h1, hval, ValueFactory.create_from_string]
        · simp [hd, hval, ValueFactory.create_from_string]
      | listVal vs =>
        simp [hd, h1, ValueFactory.create_from_string]

/-- Helper: a local persist either leaves the storage exactly as it was or
succeeds; the storage write is the final statement of `_persist_locally`. -/
theorem persist_locally_ok_or_frame (env : Env) (key : String) (nv : Value)
    (st : Storage) (now : Nat) :
    (persist_locally env key nv st now).2 = st ∨
    (persist_locally env key nv st now).1 = Except.ok () := by
  simp only [persist_locally]
  split
  · exact Or.inl rfl
  · split
    · exact Or.inl rfl
    · split
      · exact Or.inl rfl
      · exact Or.inr rfl

/-- C5: when the routing table yields no known neighbors for the key's
digest, `get` returns the empty `NodeMessage` for that digest without
raising; the result is the same for every crawl behaviour, so no network
lookup influences it. -/
theorem get_no_neighbors_returns_empty (env : Env) (st : Storage) (key : String)
    (h : env.findNeighbors (env.digest key) = []) :
    Server.get env st key = NodeMessage.of_params (env.digest key) none := by
  simp [Server.get, h]

/-- C7: when the local store holds a value for the key's digest (and peers
are known), `get` wraps the local copy as a `NodeMessage`, places it first in
the response collection, and resolves the answer by
`select_most_common_response` over that collection — so the local copy
participates in the majority vote. -/
theorem get_seeds_local_value_first (env : Env) (st : Storage) (key : String) (v : Ser)
    (hn : env.findNeighbors (env.digest key) ≠ [])
    (hl : st.get (env.digest key) = some v) :
    Server.get env st key =
      NodeMessage.of_params (env.digest key)
        (select_most_common_response (env.digest key)
          (NodeMessage.of_params (env.digest key) (some v) ::
            env.spiderResponses (env.digest key))) := by
  simp [Server.get, hl, List.length_eq_zero, hn]

/-- C9: the saveState half behaves as claimed — a server with one known
neighbor snapshots exactly (ksize, alpha, node id, neighbor address list) —
but the rejoin half does not: evaluating `loadState` at that very snapshot,
whose neighbor list is nonempty, restores ksize, alpha and node id yet
executes no bootstrap (`bootstrapAddrs = none`), because the coroutine built
at network.py line 281 is never awaited or scheduled and so never runs. -/
theorem loadState_never_bootstraps :
    saveState demoServer = some ⟨20, 3, "id0", [("10.0.0.1", 8468)]⟩ ∧
    (loadState ⟨20, 3, "id0", [("10.0.0.1", 8468)]⟩).ksize = 20 ∧
    (loadState ⟨20, 3, "id0", [("10.0.0.1", 8468)]⟩).alpha = 3 ∧
    (loadState ⟨20, 3, "id0", [("10.0.0.1", 8468)]⟩).nodeId = "id0" ∧
    (loadState ⟨20, 3, "id0", [("10.0.0.1", 8468)]⟩).bootstrapAddrs = none :=
  ⟨rfl, rfl, rfl, rfl, rfl⟩

/-- C10: whenever `set` raises — invalid value, oracle absent at either
check, or `validate_secure_value` rejecting against an existing
single-writer value — the local store is returned unchanged: the storage
write is reached only after every check has passed. -/
theorem set_error_leaves_storage_unchanged (env : Env) (key : String) (nv : Value)
    (st : Storage) (now : Nat) (e : UnauthorizedOperationException)
    (h : (Server.set env key nv st now).1 = Except.error e) :
    (Server.set env key nv st now).2 = st := by
  by_cases hv : env.isValid nv
  · rcases hpe : persist_locally env key nv st now with ⟨f, s1⟩
    have hframe := persist_locally_ok_or_frame env key nv st now
    rw [hpe] at hframe
    cases f with
    | error e1 =>
      have hs1 : s1 = st := by
        rcases hframe with hf | hf
        · exact hf
        · exact absurd hf (by simp)
      simp [Server.set, hv, hpe, hs1]
    | ok u =>
      have : (Server.set env key nv st now).1 =
          Except.ok (call_remote_persist env key (Ser.singleVal nv)) := by
        simp [Server.set, hv, hpe]
      rw [this] at h
      exact absurd h (by simp)
  · simp [Server.set, hv]

/-- C1: for every key and every value passing its own signature check, if the
authorization oracle — queried by the hash of (hex of the key digest ++ the
value's signature) — answers absent at either of the two checks of
`_persist_locally`, then `set` fails with `UnauthorizedOperationException`
propagating to the caller and the write is refused (the store is unchanged). -/
theorem set_fails_when_oracle_absent (env : Env) (key : String) (nv : Value)
    (st : Storage) (now : Nat)
    (hv : env.isValid nv = true)
    (h : get_dtl_record env 0 (env.digest key) nv = false ∨
         get_dtl_record env 1 (env.digest key) nv = false) :
    Server.set env key nv st now =
      (Except.error UnauthorizedOperationException.mk, st) := by
  have hp : persist_locally env key nv st now =
      (Except.error UnauthorizedOperationException.mk, st) := by
    rcases h with h0 | h1
    · exact persist_locally_check0_refuses env key nv st now h0
    · exact persist_locally_check1_refuses env key nv st now h1
  simp [Server.set, hv, hp]

/-- C2: with both oracle checks passing, the merge of `_persist_locally`
follows the value-model conflict rule — a retrieved `ControlledValue` has the
new value appended (no prior value discarded: the written entry is the list of
the old values followed by the new one), a retrieved single `Value` is
replaced by the new value once `validate_secure_value` passes, and an absent
value yields `ValueFactory.create_from_value(new_value)` — and the serialized
result is what is written to the local store. -/
theorem persist_locally_merge_rule (env : Env) (key : String) (nv : Value)
    (st : Storage) (now : Nat)
    (h0 : get_dtl_record env 0 (env.digest key) nv = true)
    (h1 : get_dtl_record env 1 (env.digest key) nv = true) :
    (∀ vs, (Server.get env st key).data = some (Ser.listVal vs) →
       persist_locally env key nv st now =
         (Except.ok (), st.setItem (env.digest key)
           (StoredValue.serialize (StoredValue.controlled (ControlledValue.add_value vs nv))) now)) ∧
    (∀ sv, (Server.get env st key).data = some (Ser.singleVal sv) →
       env.validateSecure (env.digest key) nv sv = true →
       persist_locally env key nv st now =
         (Except.ok (), st.setItem (env.digest key)
           (StoredValue.serialize (StoredValue.single nv)) now)) ∧
    ((Server.get env st key).data = none →
       persist_locally env key nv st now =
         (Except.ok (), st.setItem (env.digest key)
           (StoredValue.serialize (ValueFactory.create_from_value nv)) now)) := by
  refine ⟨?_, ?_, ?_⟩
  · intro vs hd
    simp [persist_locally, h0, h1, hd, ValueFactory.create_from_string]
  · intro sv hd hval
    simp [persist_locally, h0, h1, hd, hval, ValueFactory.create_from_string]
  · intro hd
    simp [persist_locally, h0, h1, hd]

/-- Helper: `_call_remote_persist` reports `true` exactly when one of the
store RPCs it actually issued (none when no neighbors are known) succeeded. -/
theorem call_remote_persist_eq_true_iff (env : Env) (key : String) (v : Ser) :
    call_remote_persist env key v = true ↔ true ∈ issuedStoreCalls env key v := by
  by_cases hn : (env.findNeighbors (env.digest key)).length = 0
  · simp [call_remote_persist, issuedStoreCalls, hn]
  · simp only [call_remote_persist, issuedStoreCalls, hn, if_false, List.any_eq_true]
    constructor
    · rintro ⟨b, hb, hbt⟩
      simpa [hbt] using hb
    · intro hb
      exact ⟨true, hb, rfl⟩

/-- C4: for a valid value whose local persist passed every check, `set`
returns `true` exactly when at least one of the store RPCs issued to the
nearest peers succeeded; in particular with no known neighbors no RPC is
issued and `set` returns `false` rather than raising. -/
theorem set_true_iff_some_peer_accepted (env : Env) (key : String) (nv : Value)
    (st : Storage) (now : Nat)
    (hv : env.isValid nv = true)
    (hp : (persist_locally env key nv st now).1 = Except.ok ()) :
    ((Server.set env key nv st now).1 = Except.ok true ↔
       true ∈ issuedStoreCalls env key (Ser.singleVal nv)) ∧
    (env.findNeighbors (env.digest key) = [] →
       (Server.set env key nv st now).1 = Except.ok false) := by
  rcases hpe : persist_locally env key nv st now with ⟨f, s1⟩
  rw [hpe] at hp
  simp only at hp
  subst hp
  have hset : (Server.set env key nv st now).1 =
      Except.ok (call_remote_persist env key (Ser.singleVal nv)) := by
    simp [Server.set, hv, hpe]
  constructor
  · rw [hset]
    rw [show (Except.ok (call_remote_persist env key (Ser.singleVal nv)) =
        (Except.ok true : Except UnauthorizedOperationException Bool)) ↔
        (call_remote_persist env key (Ser.singleVal nv) = true) by simp]
    exact call_remote_persist_eq_true_iff env key (Ser.singleVal nv)
  · intro hempty
    rw [hset]
    have : call_remote_persist env key (Ser.singleVal nv) = false := by
      simp [call_remote_persist, hempty]
    rw [this]

/-- C6: a concrete execution with one known neighbor that rejects the store
RPC: the local write of `set` succeeds and is kept, every remote store fails,
and `set` reports `false` — there is no transactional boundary rolling the
local write back. -/
theorem set_partial_failure_keeps_local_write :
    Server.set (demoEnv true (fun _ _ => true) ["n1"] (fun _ => false) true)
        "k" demoValue emptyStorage 0 =
      (Except.ok false, ⟨[⟨"k", Ser.singleVal demoValue, 0⟩]⟩) ∧
    Storage.get ⟨[⟨"k", Ser.singleVal demoValue, 0⟩]⟩ "k" =
      some (Ser.singleVal demoValue) ∧
    (⟨[⟨"k", Ser.singleVal demoValue, 0⟩]⟩ : Storage) ≠ emptyStorage := by
  refine ⟨rfl, rfl, by decide⟩

/-- Helper: the best-payload scan answers absent exactly on an empty payload
list. -/
theorem pickBest_eq_none_iff (full l : List Ser) :
    pickBest full l = none ↔ l = [] := by
  cases l with
  | nil => simp [pickBest]
  | cons p rest =>
    simp only [pickBest]
    rcases hr : pickBest full rest with _ | b
    · simp
    · dsimp only
      split <;> simp

/-- Helper: the best-payload scan picks a payload of the list such that every
payload strictly before it has a strictly smaller occurrence count and every
payload after it has an occurrence count at most as large. -/
theorem pickBest_split (full : List Ser) :
    ∀ (l : List Ser) (p : Ser), pickBest full l = some p →
      ∃ l1 l2, l = l1 ++ p :: l2 ∧
        (∀ q ∈ l1, countOcc q full < countOcc p full) ∧
        (∀ q ∈ l2, countOcc q full ≤ countOcc p full) := by
  intro l
  induction l with
  | nil => intro p h; simp [pickBest] at h
  | cons a rest ih =>
    intro p h
    simp only [pickBest] at h
    rcases hr : pickBest full rest with _ | b
    · rw [hr] at h
      dsimp only at h
      have hrest : rest = [] := (pickBest_eq_none_iff full rest).mp hr
      cases h
      refine ⟨[], rest, by simp, by simp, ?_⟩
      intro q hq
      rw [hrest] at hq
      simp at hq
    · rw [hr] at h
      dsimp only at h
      rcases ih b hr with ⟨r1, r2, hsplit, hlt, hle⟩
      by_cases hc : countOcc a full < countOcc b full
      · rw [if_pos hc] at h
        cases h
        refine ⟨a :: r1, r2, by simp [hsplit], ?_, hle⟩
        intro q hq
        rcases List.mem_cons.mp hq with h1 | h1
        · rw [h1]; exact hc
        · exact hlt q h1
      · rw [if_neg hc] at h
        cases h
        have hba : countOcc b full ≤ countOcc a full := Nat.le_of_not_lt hc
        refine ⟨[], rest, by simp, by simp, ?_⟩
        intro q hq
        rw [hsplit] at hq
        rcases List.mem_append.mp hq with h1 | h1
        · exact Nat.le_trans (Nat.le_of_lt (hlt q h1)) hba
        · rcases List.mem_cons.mp h1 with h2 | h2
          · rw [h2]; exact hba
          · exact Nat.le_trans (hle q h2) hba

/-- C3: `select_most_common_response` answers absent whenever no response
carries data (in particular on an empty response list); when it answers a
payload, that payload occurs in the data-bearing payloads with maximal
occurrence count and every payload seen before it in the stable response
order has a strictly smaller count (first-seen wins ties); and on responses
carrying [A, A, A, B] it answers A. -/
theorem select_most_common_response_spec :
    (∀ dkey responses, responses.filterMap NodeMessage.data = [] →
       select_most_common_response dkey responses = none) ∧
    (∀ dkey responses p, select_most_common_response dkey responses = some p →
       ∃ l1 l2, responses.filterMap NodeMessage.data = l1 ++ p :: l2 ∧
         (∀ q ∈ responses.filterMap NodeMessage.data,
            countOcc q (responses.filterMap NodeMessage.data) ≤
              countOcc p (responses.filterMap NodeMessage.data)) ∧
         (∀ q ∈ l1,
            countOcc q (responses.filterMap NodeMessage.data) <
              countOcc p (responses.filterMap NodeMessage.data))) ∧
    select_most_common_response "k"
      [⟨"k", some (Ser.singleVal demoValue)⟩, ⟨"k", some (Ser.singleVal demoValue)⟩,
       ⟨"k", some (Ser.singleVal demoValue)⟩, ⟨"k", some (Ser.singleVal demoValue2)⟩] =
      some (Ser.singleVal demoValue) := by
  refine ⟨?_, ?_, ?_⟩
  · intro dkey responses h
    simp [select_most_common_response, h, pickBest]
  · intro dkey responses p hp
    have hp1 : pickBest (responses.filterMap NodeMessage.data)
        (responses.filterMap NodeMessage.data) = some p := by
      simpa [select_most_common_response] using hp
    rcases pickBest_split (responses.filterMap NodeMessage.data)
        (responses.filterMap NodeMessage.data) p hp1 with ⟨l1, l2, hsplit, hlt, hle⟩
    refine ⟨l1, l2, hsplit, ?_, hlt⟩
    intro q hq
    rw [hsplit] at hq
    rcases List.mem_append.mp hq with h1 | h1
    · exact Nat.le_of_lt (hlt q h1)
    · rcases List.mem_cons.mp h1 with h2 | h2
      · rw [h2]
      · exact hle q h2
  · decide

/-- Helper: the per-entry republish step of a list-shaped stored value is one
call per element, each element re-serialized individually. -/
theorem republishExpand_listVal (k : String) (vs : List Value) :
    republishExpand (k, Ser.listVal vs) = vs.map (fun v => (k, Ser.singleVal v)) :=
  rfl

/-- Helper: the per-entry republish step of a single stored value is exactly
one call with the value unchanged. -/
theorem republishExpand_singleVal (k : String) (v : Value) :
    republishExpand (k, Ser.singleVal v) = [(k, Ser.singleVal v)] :=
  rfl

/-- Helper: the per-entry republish step makes exactly `serCallCount` calls. -/
theorem length_republishExpand (kv : String × Ser) :
    (republishExpand kv).length = serCallCount kv.2 := by
  rcases kv with ⟨k, v⟩
  cases v <;> simp [republishExpand, serCallCount]

/-- C8: every stored entry older than one hour is republished — a list-shaped
(multi-writer) stored value expanding into one remote-persist call per
element, each re-serialized individually, any other stored value giving
exactly one call with the value unchanged; only such entries are republished,
and the total number of calls is the sum of the per-entry call counts. -/
theorem refresh_table_republish_spec (st : Storage) (now : Nat) :
    (∀ e ∈ st.entries, e.time + 3600 ≤ now →
       (∀ vs, e.value = Ser.listVal vs →
          ∀ v ∈ vs, (e.key, Ser.singleVal v) ∈ refresh_table_republish st now) ∧
       (∀ v, e.value = Ser.singleVal v →
          (e.key, e.value) ∈ refresh_table_republish st now)) ∧
    (∀ c ∈ refresh_table_republish st now,
       ∃ e ∈ st.entries, e.time + 3600 ≤ now ∧ e.key = c.1 ∧
         (c.2 = e.value ∨ ∃ vs, e.value = Ser.listVal vs ∧
            ∃ v ∈ vs, c.2 = Ser.singleVal v)) ∧
    (refresh_table_republish st now).length =
      ((st.iteritemsOlderThan now 3600).map (fun kv => serCallCount kv.2)).sum := by
  refine ⟨?_, ?_, ?_⟩
  · intro e he hold
    have hmem : (e.key, e.value) ∈ st.iteritemsOlderThan now 3600 := by
      simp only [Storage.iteritemsOlderThan, List.mem_map]
      exact ⟨e, List.mem_filter.mpr ⟨he, by simpa using hold⟩, rfl⟩
    constructor
    · intro vs hvs v hv
      refine List.mem_flatMap.mpr ⟨(e.key, e.value), hmem, ?_⟩
      rw [hvs, republishExpand_listVal]
      exact List.mem_map.mpr ⟨v, hv, rfl⟩
    · intro v hv
      refine List.mem_flatMap.mpr ⟨(e.key, e.value), hmem, ?_⟩
      rw [hv, republishExpand_singleVal]
      simp
  · intro c hc
    rcases List.mem_flatMap.mp hc with ⟨kv, hkv, hcin⟩
    rcases kv with ⟨k, w⟩
    simp only [Storage.iteritemsOlderThan, List.mem_map] at hkv
    rcases hkv with ⟨e, hef, heq⟩
    have hef' := List.mem_filter.mp hef
    have h1 : e.key = k := congrArg Prod.fst heq
    have h2 : e.value = w := congrArg Prod.snd heq
    have hold : e.time + 3600 ≤ now := by simpa using hef'.2
    cases w with
    | singleVal v =>
      rw [republishExpand_singleVal] at hcin
      have hcv : c = (k, Ser.singleVal v) := by simpa using hcin
      refine ⟨e, hef'.1, hold, ?_, Or.inl ?_⟩
      · rw [hcv, h1]
      · rw [hcv, h2]
    | listVal vs =>
      rw [republishExpand_listVal] at hcin
      rcases List.mem_map.mp hcin with ⟨v, hv, hcv⟩
      refine ⟨e, hef'.1, hold, ?_, Or.inr ⟨vs, h2, v, hv, ?_⟩⟩
      · rw [← hcv, h1]
      · rw [← hcv]
  · rw [refresh_table_republish, List.length_flatMap]
    exact congrArg List.sum (List.map_congr_left (fun kv _ => length_republishExpand kv))

/-- Witness for C5 at a concrete environment with no known neighbors. -/
theorem get_no_neighbors_returns_empty_witness :
    demoEnvNoPeers.findNeighbors "k" = [] ∧
    Server.get demoEnvNoPeers emptyStorage "k" = NodeMessage.of_params "k" none :=
  ⟨rfl, get_no_neighbors_returns_empty demoEnvNoPeers emptyStorage "k" rfl⟩

/-- Witness for C7 at a concrete store holding a value for the key. -/
theorem get_seeds_local_value_first_witness :
    demoStorageCtrl.get "k" = some (Ser.listVal [demoValue]) ∧
    Server.get demoEnvOK demoStorageCtrl "k" =
      NodeMessage.of_params "k"
        (select_most_common_response "k"
          [NodeMessage.of_params "k" (some (Ser.listVal [demoValue]))]) :=
  ⟨rfl, get_seeds_local_value_first demoEnvOK demoStorageCtrl "k"
    (Ser.listVal [demoValue]) (by decide) rfl⟩

/-- Witness for C10 at a concrete invalid value. -/
theorem set_error_leaves_storage_unchanged_witness :
    (Server.set demoEnvInvalid "k" demoValue emptyStorage 0).1 =
      Except.error UnauthorizedOperationException.mk ∧
    (Server.set demoEnvInvalid "k" demoValue emptyStorage 0).2 = emptyStorage :=
  ⟨rfl, set_error_leaves_storage_unchanged demoEnvInvalid "k" demoValue emptyStorage 0
    UnauthorizedOperationException.mk rfl⟩

/-- Witness for C1 at a concrete environment whose oracle answers absent. -/
theorem set_fails_when_oracle_absent_witness :
    demoEnvNoAuth.isValid demoValue = true ∧
    get_dtl_record demoEnvNoAuth 0 "k" demoValue = false ∧
    Server.set demoEnvNoAuth "k" demoValue emptyStorage 0 =
      (Except.error UnauthorizedOperationException.mk, emptyStorage) :=
  ⟨rfl, rfl, set_fails_when_oracle_absent demoEnvNoAuth "k" demoValue emptyStorage 0
    rfl (Or.inl rfl)⟩

/-- Witness for C2: a second writer's value is appended to a stored controlled
value, and the merged list is written. -/
theorem persist_locally_merge_rule_witness :
    get_dtl_record demoEnvOK 0 "k" demoValue2 = true ∧
    (Server.get demoEnvOK demoStorageCtrl "k").data = some (Ser.listVal [demoValue]) ∧
    persist_locally demoEnvOK "k" demoValue2 demoStorageCtrl 7 =
      (Except.ok (), demoStorageCtrl.setItem "k" (Ser.listVal [demoValue, demoValue2]) 7) :=
  ⟨rfl, rfl, (persist_locally_merge_rule demoEnvOK "k" demoValue2 demoStorageCtrl 7
    rfl rfl).1 [demoValue] rfl⟩

/-- Witness for C4 at a concrete valid, authorized value with one accepting
peer. -/
theorem set_true_iff_some_peer_accepted_witness :
    (persist_locally demoEnvOK "k" demoValue emptyStorage 0).1 = Except.ok () ∧
    ((Server.set demoEnvOK "k" demoValue emptyStorage 0).1 = Except.ok true ↔
       true ∈ issuedStoreCalls demoEnvOK "k" (Ser.singleVal demoValue)) :=
  ⟨rfl, (set_true_iff_some_peer_accepted demoEnvOK "k" demoValue emptyStorage 0 rfl rfl).1⟩

/-- Witness for C3 at the empty response list. -/
theorem select_most_common_response_spec_witness :
    select_most_common_response "k" ([] : List NodeMessage) = none :=
  select_most_common_response_spec.1 "k" [] rfl

/-- Witness for C8: the hour-old multi-writer entry is expanded element-wise
into the republish calls. -/
theorem refresh_table_republish_spec_witness :
    ("k", Ser.singleVal demoValue) ∈ refresh_table_republish demoTimedStorage 4000 :=
  ((refresh_table_republish_spec demoTimedStorage 4000).1
      ⟨"k", Ser.listVal [demoValue, demoValue2], 0⟩ (by decide) (by decide)).1
    [demoValue, demoValue2] rfl demoValue (by decide)
